import Mathlib

/-!
Verification of the lead-rejection email application
(`version10-email-only-copy.py`).

The development shallowly embeds the pure data transformations of the
application: JSON-like Python values, the lead record shape returned by the
CRM, custom-field extraction, sender-name derivation, template substitution,
timestamp formatting, lead-source classification, the SMTP send flow (with
the external world modelled as an oracle of per-step outcomes), template
loading with its built-in fallback, the two memoising fetch functions, and
the refresh handler's effect on the cached state.
-/

set_option maxRecDepth 4096

namespace Rejection

/-! ## A model of the Python values the application manipulates

Custom-field values arriving from the CRM JSON are null, strings, integers,
or lists of values.  `none` at an `Option CFVal` field of a record models an
absent dictionary key, while `some CFVal.null` models a key that is present
with value `None`. -/

inductive CFScalar : Type
  | null : CFScalar
  | str (s : String) : CFScalar
  | num (n : Int) : CFScalar
  deriving DecidableEq, Repr

inductive CFVal : Type
  | null : CFVal
  | str (s : String) : CFVal
  | num (n : Int) : CFVal
  | vlist (l : List CFScalar) : CFVal
  deriving DecidableEq, Repr

/-- Python truthiness on the modelled values: `None`, `""`, `0` and `[]`
are falsy, everything else is truthy. -/
def pyTruthy : CFVal → Bool
  | .null => false
  | .str s => s != ""
  | .num n => n != 0
  | .vlist l => !l.isEmpty

/-- Python `str()` on a scalar, as used by
`", ".join(str(item) for item in computed_value)`: string items render as
themselves, `None` as `"None"`, integers in decimal. -/
def scalarStr : CFScalar → String
  | .null => "None"
  | .str s => s
  | .num n => toString n

/-- Python `str.lower` (ASCII model). -/
def pyLower (s : String) : String :=
  String.mk (s.data.map Char.toLower)

/-- Python `str.capitalize`: upper-case the first character and lower-case
the rest. -/
def pyCapitalize (s : String) : String :=
  match s.data with
  | [] => ""
  | c :: rest => String.mk (Char.toUpper c :: rest.map Char.toLower)

/-- Substring test on character lists: does `s` contain `pat` as a
contiguous sublist? -/
def hasSub (pat : List Char) : List Char → Bool
  | [] => pat.isPrefixOf ([] : List Char)
  | c :: rest => pat.isPrefixOf (c :: rest) || hasSub pat rest

/-- Python's `pat in s` substring operator. -/
def strContains (s pat : String) : Bool :=
  hasSub pat.data s.data

/-- Association-list lookup, modelling Python `dict` access: the first
binding of the key wins. -/
def lookupA {α β : Type} [DecidableEq α] : List (α × β) → α → Option β
  | [], _ => none
  | (k, v) :: rest, key => if k = key then some v else lookupA rest key

/-- Association-list insertion, modelling Python `dict` assignment: an
existing binding is overwritten in place, a new key is appended. -/
def insertAssoc {α β : Type} [DecidableEq α] : List (α × β) → α → β → List (α × β)
  | [], k, v => [(k, v)]
  | (k', v') :: rest, k, v =>
      if k' = k then (k, v) :: rest else (k', v') :: insertAssoc rest k v

/-- Python `str.split(sep)` on a single separator character, over character
lists.  Splitting the empty list yields one empty piece, as in Python. -/
def splitOnChar (sep : Char) : List Char → List (List Char)
  | [] => [[]]
  | c :: rest =>
      let r := splitOnChar sep rest
      if c = sep then [] :: r
      else
        match r with
        | [] => [[c]]
        | h :: t => (c :: h) :: t

/-- Python `str.replace(old, new)` over character lists: leftmost
non-overlapping occurrences of `old` are replaced by `new`.  The `fuel`
argument is a structural-recursion bound only; every step consumes at least
one character, so starting the fuel at the input's length never exhausts
it.  The callers in the application only ever pass non-empty `old`; for
`old = []` this model returns the input unchanged. -/
def replGo (old new : List Char) : Nat → List Char → List Char
  | _, [] => []
  | 0, s => s
  | fuel + 1, c :: rest =>
      if old ≠ [] ∧ old.isPrefixOf (c :: rest) then
        new ++ replGo old new fuel ((c :: rest).drop old.length)
      else
        c :: replGo old new fuel rest

/-- Python `str.replace(old, new)`. -/
def pyReplace (s old new : String) : String :=
  String.mk (replGo old.data new.data s.data.length s.data)

/-! ## The lead record shape

Only the parts of the CRM lead JSON that the verified functions inspect are
modelled.  `Option` fields model possibly-absent dictionary keys; tag and
name values are modelled as strings, the type the CRM delivers. -/

/-- One entry of a list-shaped `custom_fields` container.  `computed_value`
is `none` when the key is absent and `some CFVal.null` when it is present
holding `None`; likewise `value`. -/
structure CField : Type where
  name : Option String
  computed_value : Option CFVal
  value : Option CFVal
  deriving DecidableEq, Repr

/-- The `custom_fields` container is either a JSON array of field objects
(a `none` entry models a non-dict array element, which the code skips) or a
JSON object mapping field names to values.  An absent key defaults to the
empty array in the code (`lead_details.get("custom_fields", [])`), so it is
modelled as `clist []`. -/
inductive CustomFields : Type
  | clist (fs : List (Option CField)) : CustomFields
  | cdict (m : List (String × CFVal)) : CustomFields
  deriving DecidableEq, Repr

/-- The `source` object of a lead (`{"name": ...}`); the whole object may be
absent or not a dict (`none`), and its `name` key may be absent. -/
structure SourceObj : Type where
  name : Option String
  deriving DecidableEq, Repr

/-- The projection of a lead-details dictionary that the verified functions
read. -/
structure LeadDetails : Type where
  name : Option String
  company_name : Option String
  tags : List String
  source : Option SourceObj
  custom_fields : CustomFields
  deriving DecidableEq, Repr

/-- The empty dictionary `{}` that the fetch functions return on error:
every key is absent, so every `get` falls back to its default. -/
def emptyLead : LeadDetails :=
  { name := none
    company_name := none
    tags := []
    source := none
    custom_fields := .clist [] }

/-! ## `get_custom_field` (lines 220-241) -/

/-- The `for field in custom_fields` loop of `get_custom_field`: the first
dict entry whose `name` equals `field_name` decides the result — its
`computed_value` when that key is present (a list value joined with `", "`
after `str()`), else its `value` with default `""`; falling off the loop
returns `""`. -/
def get_custom_field_list (field_name : String) : List (Option CField) → CFVal
  | [] => .str ""
  | none :: rest => get_custom_field_list field_name rest
  | some f :: rest =>
      if f.name = some field_name then
        match f.computed_value with
        | some (.vlist l) => .str (String.intercalate ", " (l.map scalarStr))
        | some c => c
        | none => f.value.getD (.str "")
      else get_custom_field_list field_name rest

/-- `get_custom_field(lead_details, field_name)`: empty containers return
`""` (the `if not custom_fields` guard), a list is scanned for the first
matching field dict, a mapping is looked up directly with default `""`. -/
def get_custom_field (lead_details : LeadDetails) (field_name : String) : CFVal :=
  match lead_details.custom_fields with
  | .clist [] => .str ""
  | .clist fs => get_custom_field_list field_name fs
  | .cdict [] => .str ""
  | .cdict m => (lookupA m field_name).getD (.str "")

/-! ## `get_sender_name` (lines 243-253) -/

/-- `get_sender_name(email)`: the local part (before the first `'@'`) loses
its final character when longer than one character, and is then
capitalized.  A `none` argument models a non-string input, on which the
attribute access raises and the `except` branch returns `"Active Impact"`. -/
def get_sender_name (email : Option String) : String :=
  match email with
  | none => "Active Impact"
  | some e =>
      let local_part := (splitOnChar '@' e.data).headD []
      let first_name := if local_part.length > 1 then local_part.dropLast else local_part
      pyCapitalize (String.mk first_name)

/-! ## `generate_rejection_email` (lines 255-278)

The module-level `EMAIL_TEMPLATES` table and `EMAIL_ADDRESS` configuration
are passed as parameters. -/

/-- `generate_rejection_email(lead_data, template_type)`: look the template
up with fallback to `"standard"` then `""`, return `None` on a falsy
template, otherwise substitute the three placeholders and append the
signature block. -/
def generate_rejection_email (templates : List (String × String))
    (email_address : Option String) (lead_data : LeadDetails)
    (template_type : String) : Option String :=
  let template := (lookupA templates template_type).getD
    ((lookupA templates "standard").getD "")
  if template = "" then none
  else
    let sender_name := get_sender_name email_address
    let email_content := pyReplace template "{lead_name}" (lead_data.name.getD "")
    let email_content := pyReplace email_content "{company_name}" (lead_data.company_name.getD "")
    let email_content := pyReplace email_content "{sender_name}" sender_name
    some (email_content ++ "\n\nWarmly,\n" ++ sender_name)

/-! ## `format_date` (lines 385-395) and `days_in_copper` (lines 398-413)

Numeric timestamps are modelled as rationals so that the division by 1000
is exact.  `datetime.fromtimestamp` and `datetime.now()` convert through
the same local timezone, so their difference equals the difference of epoch
seconds; `timedelta.days` is floor division of that difference by 86400.
`datetime.fromtimestamp(ts)` raises (`OverflowError`/`OSError`) when `ts`
falls outside the platform's representable datetime range — year 1 through
year 9999 in local time, possibly narrowed further by the OS — and both
functions catch that in their `except` branch (lines 393-395 and 411-413).
The convertible range is therefore a parameter of the embedding. -/

/-- The platform's convertible epoch range: `datetime.fromtimestamp(ts)`
returns normally exactly when `lo ≤ ts ≤ hi` and raises otherwise. -/
structure FromTimestampRange : Type where
  lo : ℚ
  hi : ℚ
  deriving DecidableEq, Repr

/-- The convertible range of a UTC platform: the epoch seconds of
`datetime.min` (0001-01-01T00:00:00) through `datetime.max`
(9999-12-31T23:59:59.999999). -/
def utcRange : FromTimestampRange :=
  { lo := -62135596800, hi := 253402300799 + (999999 : ℚ) / 1000000 }

/-- The result of `format_date`: the fixed `"Unknown date"` string for a
falsy timestamp, the fixed `"Date format error"` string from the `except`
branch when `fromtimestamp` raises, or `strftime` applied to the instant
`secs` seconds after the epoch (the rendering itself is a bijective
library call and is left abstract). -/
inductive DateDisplay : Type
  | unknownDate : DateDisplay
  | formatError : DateDisplay
  | rendered (secs : ℚ) : DateDisplay
  deriving DecidableEq, Repr

/-- `format_date(timestamp)` on a platform with convertible range `pr`:
falsy (zero) timestamps give `"Unknown date"`; a value above
`1000000000000` is divided by 1000; conversion of the adjusted instant
renders it when it is in range, and the `except` branch (lines 393-395)
gives `"Date format error"` when `fromtimestamp` raises on it. -/
def format_date (pr : FromTimestampRange) (timestamp : ℚ) : DateDisplay :=
  if timestamp = 0 then .unknownDate
  else
    let ts := if timestamp > 1000000000000 then timestamp / 1000 else timestamp
    if pr.lo ≤ ts ∧ ts ≤ pr.hi then .rendered ts else .formatError

/-- `days_in_copper(timestamp)` evaluated at current epoch time `now` on a
platform with convertible range `pr`: falsy (zero) timestamps give
`"Unknown"` (`none`); otherwise the millisecond correction is applied and,
when the adjusted instant is convertible, the result is
`(datetime.now() - datetime.fromtimestamp(ts)).days`, the floor of the
elapsed seconds divided by 86400; when `fromtimestamp` raises on it, the
`except` branch (lines 411-413) returns the same `"Unknown"` (`none`). -/
def days_in_copper (pr : FromTimestampRange) (now timestamp : ℚ) : Option Int :=
  if timestamp = 0 then none
  else
    let ts := if timestamp > 1000000000000 then timestamp / 1000 else timestamp
    if pr.lo ≤ ts ∧ ts ≤ pr.hi then some ⌊(now - ts) / 86400⌋ else none

/-! ## `get_lead_source` (lines 416-449) -/

/-- The tag check: `any("form" in tag.lower() for tag in tags)`. -/
def tags_form_hit (ld : LeadDetails) : Bool :=
  ld.tags.any fun t => strContains (pyLower t) "form"

/-- The guard `isinstance(source, dict) and source.get("name")`:
the source object exists and its `name` is present and truthy. -/
def source_name_truthy (ld : LeadDetails) : Bool :=
  match ld.source with
  | some src =>
      match src.name with
      | some n => n != ""
      | none => false
  | none => false

/-- The keyword test on `source.get("name", "").lower()`. -/
def source_name_hit (ld : LeadDetails) : Bool :=
  let source_name := pyLower ((ld.source.bind SourceObj.name).getD "")
  strContains source_name "form" || strContains source_name "website" ||
    strContains source_name "submission"

/-- `sum(1 for field in custom_fields if isinstance(field, dict) and
field.get("value"))`: the number of dict entries with a truthy `value`. -/
def filled_fields_count (fs : List (Option CField)) : Nat :=
  (fs.filter fun o =>
    match o with
    | some f => pyTruthy (f.value.getD .null)
    | none => false).length

/-- The filled-custom-fields check (lines 437-441): the container is a list
longer than five entries of which more than five have a truthy `value`. -/
def custom_fields_filled_hit (ld : LeadDetails) : Bool :=
  match ld.custom_fields with
  | .clist fs => decide (fs.length > 5) && decide (filled_fields_count fs > 5)
  | .cdict _ => false

/-- The form-indicator field names of line 444. -/
def form_indicator_fields : List String :=
  ["Revenue Model", "Last year\x27s revenue", "Number of full time employees"]

/-- The form-indicator check (lines 444-446): some indicator field extracts
to a truthy value. -/
def indicator_hit (ld : LeadDetails) : Bool :=
  form_indicator_fields.any fun n => pyTruthy (get_custom_field ld n)

/-- The tail of `get_lead_source` after the `Source` custom-field check:
the filled-fields heuristic, then the form-indicator fields, then the
`"Manually Added"` fallback. -/
def get_lead_source_tail (ld : LeadDetails) : String :=
  if custom_fields_filled_hit ld then "Form Submission"
  else if indicator_hit ld then "Form Submission"
  else "Manually Added"

/-- `get_lead_source(lead_details)`: the checks run in source order; the
result is `none` when the code raises, which happens exactly when the
`Source` custom field extracts to a truthy non-string (on which
`source_info.lower()` raises `AttributeError`, uncaught). -/
def get_lead_source (ld : LeadDetails) : Option String :=
  if tags_form_hit ld then some "Form Submission"
  else if source_name_truthy ld && source_name_hit ld then some "Form Submission"
  else
    let source_info := get_custom_field ld "Source"
    if pyTruthy source_info then
      match source_info with
      | .str s =>
          if strContains (pyLower s) "form" || strContains (pyLower s) "website" then
            some "Form Submission"
          else some (get_lead_source_tail ld)
      | _ => none
    else some (get_lead_source_tail ld)

/-! ## `send_email` (lines 302-382)

The SMTP interaction is modelled by an oracle giving each step's outcome:
`none` means the call returns normally, `some e` means it raises `e`.  The
wrapper maps each caught exception class to its message, exactly as the
`except` clauses do, and also records the trace of SMTP calls performed so
that the single-attempt property is expressible. -/

/-- The exception classes distinguished by `send_email`'s handlers, each
carrying `str(e)`. -/
inductive PyExc : Type
  | smtpAuth (msg : String) : PyExc
  | smtpSenderRefused (msg : String) : PyExc
  | smtpRecipientsRefused (msg : String) : PyExc
  | smtpOther (msg : String) : PyExc
  | generic (msg : String) : PyExc
  deriving DecidableEq, Repr

/-- Outcome of each SMTP call in program order. -/
structure SMTPWorld : Type where
  connectExc : Option PyExc
  starttlsExc : Option PyExc
  loginExc : Option PyExc
  sendExc : Option PyExc
  quitExc : Option PyExc
  deriving DecidableEq, Repr

/-- The SMTP calls `send_email` can perform. -/
inductive SMTPAction : Type
  | connect : SMTPAction
  | starttls : SMTPAction
  | login : SMTPAction
  | sendmail : SMTPAction
  | quitConn : SMTPAction
  deriving DecidableEq, Repr

/-- The `try` body of `send_email`: perform the five calls in order,
stopping at the first exception; returns the trace of calls made and the
exception, if any. -/
def smtp_send_steps (w : SMTPWorld) : List SMTPAction × Option PyExc :=
  match w.connectExc with
  | some e => ([.connect], some e)
  | none =>
    match w.starttlsExc with
    | some e => ([.connect, .starttls], some e)
    | none =>
      match w.loginExc with
      | some e => ([.connect, .starttls, .login], some e)
      | none =>
        match w.sendExc with
        | some e => ([.connect, .starttls, .login, .sendmail], some e)
        | none =>
          match w.quitExc with
          | some e => ([.connect, .starttls, .login, .sendmail, .quitConn], some e)
          | none => ([.connect, .starttls, .login, .sendmail, .quitConn], none)

/-- The fixed app-password advice returned when an authentication error
message contains `"535"`. -/
def appPasswordMessage : String :=
  "Authentication failed with Gmail. This is likely because:\n" ++
  "1. You need to use an App Password instead of your regular password\n" ++
  "2. Your account has 2-factor authentication enabled which requires an App Password\n" ++
  "3. Your password may be incorrect\n\n" ++
  "To create an App Password:\n" ++
  "1. Go to your Google Account settings\n" ++
  "2. Search for \x27App Passwords\x27\n" ++
  "3. Generate a new app password for \x27Mail\x27\n" ++
  "4. Use that password in your Streamlit secrets"

/-- The message each `except` clause of `send_email` produces. -/
def excMessage : PyExc → String
  | .smtpAuth m =>
      if strContains m "535" then appPasswordMessage
      else "Authentication failed: " ++ m ++ ". Please check your email credentials."
  | .smtpSenderRefused m =>
      "Sender refused: " ++ m ++ ". This may be due to restrictions on your Gmail account."
  | .smtpRecipientsRefused m =>
      "Recipient(s) refused: " ++ m ++ ". Please check the recipient email address."
  | .smtpOther m => "SMTP error: " ++ m
  | .generic m => "Failed to send email: " ++ m

/-- The email credentials configuration (`EMAIL_ADDRESS`,
`EMAIL_PASSWORD`). -/
structure EmailConfig : Type where
  email_address : String
  email_password : String
  deriving DecidableEq, Repr

/-- `send_email(recipient_email, subject, body, cc_email)` under SMTP
oracle `w`: the guard clauses for missing credentials and empty recipient
return early without any SMTP call; otherwise the five-step sequence runs
once and any exception is mapped to `(False, message)`.  Returns the
`(success, message)` pair together with the trace of SMTP calls made. -/
def send_email (cfg : EmailConfig) (w : SMTPWorld) (recipient_email : String) :
    (Bool × String) × List SMTPAction :=
  if cfg.email_address = "" ∨ cfg.email_password = "" then
    ((false, "Email credentials not configured. Please check your Streamlit secrets."), [])
  else if recipient_email = "" then
    ((false, "No recipient email provided"), [])
  else
    let (trace, exc) := smtp_send_steps w
    match exc with
    | none => ((true, "Email sent successfully!"), trace)
    | some e => ((false, excMessage e), trace)

/-! ## Template loading (lines 88-103) -/

/-- The built-in fallback template installed when no external template file
loads (line 102). -/
def defaultGeneralTemplate : String :=
  "Hi {first_name},\n\nThanks so much for reaching out to Active Impact!\n\nThank you for your interest in our fund, but we\x27ve decided to pass on this opportunity.\n\nWarmly,"

/-- The fallback template table of lines 101-103. -/
def defaultTemplates : List (String × String) :=
  [("general", defaultGeneralTemplate)]

/-- The module-level template-loading loop: `fileResults` gives, per
candidate path, the parsed table (`some`) or a load failure (`none`); the
loop keeps the first successful load and breaks.  A falsy result — nothing
loaded, or an empty table — is replaced by the built-in default. -/
def load_email_templates (fileResults : List (Option (List (String × String)))) :
    List (String × String) :=
  let loaded := (fileResults.filterMap id).headD []
  if loaded = [] then defaultTemplates else loaded

/-! ## The memoising fetch functions (lines 168-217)

The HTTP exchange is modelled by the response the single `requests.get`
would produce. -/

/-- The response to `GET /leads/{lead_id}`. -/
structure LeadResponse : Type where
  status : Int
  body : LeadDetails
  deriving DecidableEq, Repr

/-- `fetch_lead_details(lead_id)` acting on the explicit
`LEAD_DETAILS_CACHE`: a cache hit returns the stored value without a
request; otherwise one request is made, a 200 response is stored and
returned, and any other response yields `{}` uncached.  The `Bool`
component records whether a request was issued. -/
def fetch_lead_details (resp : LeadResponse) (cache : List (Int × LeadDetails))
    (lead_id : Int) : LeadDetails × List (Int × LeadDetails) × Bool :=
  match lookupA cache lead_id with
  | some ld => (ld, cache, false)
  | none =>
      if resp.status = 200 then
        (resp.body, insertAssoc cache lead_id resp.body, true)
      else (emptyLead, cache, true)

/-- One element of the custom-field-definitions response array. -/
structure DefEntry : Type where
  id : Option Int
  name : Option String
  deriving DecidableEq, Repr

/-- The response to `GET /custom_field_definitions`. -/
structure DefsResponse : Type where
  status : Int
  body : List DefEntry
  deriving DecidableEq, Repr

/-- The loop of lines 182-184 building `definition_map` from the fetched
definitions: `definition_map[definition.get("id")] = definition.get("name")`. -/
def build_definition_map (defs : List DefEntry) : List (Option Int × Option String) :=
  defs.foldl (fun m d => insertAssoc m d.id d.name) []

/-- `fetch_custom_field_definitions()` acting on the explicit
`FIELD_DEFINITIONS_CACHE` (`none` = the initial `None`): a non-`None` cache
is returned as is without a request; otherwise one request is made, a 200
response has its definition map stored and returned, and any other response
yields `{}` with the cache left at `None`. -/
def fetch_custom_field_definitions (resp : DefsResponse)
    (cache : Option (List (Option Int × Option String))) :
    List (Option Int × Option String) × Option (List (Option Int × Option String)) × Bool :=
  match cache with
  | some m => (m, some m, false)
  | none =>
      if resp.status = 200 then
        let definition_map := build_definition_map resp.body
        (definition_map, some definition_map, true)
      else ([], none, true)

/-! ## The refresh handler (lines 633-639) -/

/-- The per-process and per-session cached CRM state: the module-level
`LEAD_DETAILS_CACHE` and `FIELD_DEFINITIONS_CACHE` and the session's
`email_cache` (`none` = key absent from `st.session_state`). -/
structure AppState : Type where
  lead_details_cache : List (Int × LeadDetails)
  field_definitions_cache : Option (List (Option Int × Option String))
  email_cache : Option (List (String × String))
  deriving DecidableEq, Repr

/-- The body of the `Refresh Leads` button handler: assign
`LEAD_DETAILS_CACHE = {}` and delete `st.session_state.email_cache`; no
other state is touched before `st.rerun()`. -/
def refresh_leads_handler (s : AppState) : AppState :=
  { lead_details_cache := []
    field_definitions_cache := s.field_definitions_cache
    email_cache := none }

/-! ## Claim C1: custom-field extraction -/

/-- The spec's description of custom-field extraction: the (first) field of
matching name contributes its computed value when one is present (a list
joined with commas), else its raw value, else `""`; a mapping-shaped
container is looked up directly; an absent or empty container gives `""`. -/
def get_custom_field_spec (ld : LeadDetails) (field_name : String) : CFVal :=
  match ld.custom_fields with
  | .clist fs =>
      match fs.findSome? (fun o => o.bind fun f =>
          if f.name = some field_name then some f else none) with
      | some f =>
          match f.computed_value with
          | some (.vlist l) => .str (String.intercalate ", " (l.map scalarStr))
          | some c => c
          | none => f.value.getD (.str "")
      | none => .str ""
  | .cdict m => (lookupA m field_name).getD (.str "")

lemma get_custom_field_list_findSome (field_name : String) (fs : List (Option CField)) :
    get_custom_field_list field_name fs =
      match fs.findSome? (fun o => o.bind fun f =>
          if f.name = some field_name then some f else none) with
      | some f =>
          match f.computed_value with
          | some (.vlist l) => CFVal.str (String.intercalate ", " (l.map scalarStr))
          | some c => c
          | none => f.value.getD (.str "")
      | none => CFVal.str "" := by
  induction fs with
  | nil => rfl
  | cons o rest ih =>
      cases o with
      | none => simpa [get_custom_field_list, List.findSome?_cons] using ih
      | some f =>
          by_cases hname : f.name = some field_name
          · simp [get_custom_field_list, List.findSome?_cons, hname, Option.bind]
          · simpa [get_custom_field_list, List.findSome?_cons, hname, Option.bind] using ih

/-- **C1.** `get_custom_field` returns the computed value when present
(joining list values with commas), else the raw value, else `""`, for
list-shaped containers matched by name and for mapping-shaped containers,
and the empty string for absent or empty containers: it coincides with the
spec-side extraction function on every lead and field name. -/
theorem get_custom_field_matches_spec (ld : LeadDetails) (field_name : String) :
    get_custom_field ld field_name = get_custom_field_spec ld field_name := by
  unfold get_custom_field get_custom_field_spec
  cases hcf : ld.custom_fields with
  | clist fs =>
      cases fs with
      | nil => rfl
      | cons o rest => exact get_custom_field_list_findSome field_name (o :: rest)
  | cdict m =>
      cases m with
      | nil => rfl
      | cons kv rest => rfl

/-! ## Claim C2: lead-source classification -/

/-- The `Source` custom-field check of lines 432-434: the extracted value
is a string containing `"form"` or `"website"` (case-insensitively).
A falsy string extracts to no hit since `""` contains neither keyword. -/
def source_custom_field_hit (ld : LeadDetails) : Bool :=
  match get_custom_field ld "Source" with
  | .str s => strContains (pyLower s) "form" || strContains (pyLower s) "website"
  | _ => false

/-- `get_lead_source` evaluates without raising exactly when the `Source`
custom field extracts to a string or to a falsy value (a truthy non-string
makes `source_info.lower()` raise `AttributeError`). -/
def source_ok (ld : LeadDetails) : Bool :=
  match get_custom_field ld "Source" with
  | .str _ => true
  | v => !pyTruthy v

/-- The corrected classification condition: any of the five checks of
`get_lead_source` fires. -/
def lead_source_spec_cond (ld : LeadDetails) : Bool :=
  tags_form_hit ld || source_name_hit ld || source_custom_field_hit ld ||
    custom_fields_filled_hit ld || indicator_hit ld

/-- The number of populated (truthy-valued) custom fields, the quantity the
claim's third disjunct speaks about. -/
def populated_custom_field_count (ld : LeadDetails) : Nat :=
  match ld.custom_fields with
  | .clist fs => filled_fields_count fs
  | .cdict m => (m.filter fun kv => pyTruthy kv.2).length

lemma get_lead_source_tail_eq (ld : LeadDetails) :
    get_lead_source_tail ld =
      if custom_fields_filled_hit ld || indicator_hit ld then "Form Submission"
      else "Manually Added" := by
  unfold get_lead_source_tail
  by_cases h1 : custom_fields_filled_hit ld <;> by_cases h2 : indicator_hit ld <;>
    simp [h1, h2]

lemma source_name_hit_imp_truthy (ld : LeadDetails) (h : source_name_truthy ld = false) :
    source_name_hit ld = false := by
  unfold source_name_truthy at h
  unfold source_name_hit
  cases hsrc : ld.source with
  | none => simp [hsrc]; decide
  | some src =>
      cases hn : src.name with
      | none => simp [hsrc, hn]; decide
      | some n =>
          simp only [hsrc, hn] at h
          have hne : n = "" := by simpa using h
          subst hne
          simp [hsrc, hn]; decide

/-- A lead on which `get_lead_source` returns `"Form Submission"` although
none of the claim's three conditions holds: no tag contains `"form"`, there
is no source name, and only one custom field is populated — the populated
`"Revenue Model"` form-indicator field alone triggers the classification. -/
def leadRevenueOnly : LeadDetails :=
  { name := some "Jane Doe"
    company_name := some "Acme Clean"
    tags := []
    source := none
    custom_fields := .clist
      [some { name := some "Revenue Model", computed_value := none,
              value := some (.str "SaaS") }] }

/-- **C2 counterexample.** On `leadRevenueOnly` no tag contains `"form"`,
the source name matches no keyword, and at most five custom fields are
populated, yet `get_lead_source` returns `"Form Submission"` — refuting the
claim, which demands `"Manually Added"` in this situation. -/
theorem get_lead_source_extra_paths_cex :
    get_lead_source leadRevenueOnly = some "Form Submission" ∧
      tags_form_hit leadRevenueOnly = false ∧
      source_name_hit leadRevenueOnly = false ∧
      populated_custom_field_count leadRevenueOnly ≤ 5 := by
  refine ⟨?_, by decide, by decide, by decide⟩
  decide

/-- **C2 (amended).** Provided the `Source` custom field does not make the
code raise, `get_lead_source` returns `"Form Submission"` exactly when a
tag contains `"form"`, the source name contains `"form"`/`"website"`/
`"submission"`, the `Source` custom field is a string containing `"form"`
or `"website"`, the list-shaped custom-field container has more than five
entries of which more than five are populated, or one of the three
form-indicator fields is populated; otherwise `"Manually Added"`. -/
theorem get_lead_source_classification (ld : LeadDetails) (h : source_ok ld = true) :
    get_lead_source ld =
      some (if lead_source_spec_cond ld then "Form Submission"
            else "Manually Added") := by
  have htail := get_lead_source_tail_eq ld
  unfold get_lead_source lead_source_spec_cond
  unfold source_ok at h
  by_cases h1 : tags_form_hit ld
  · simp [h1]
  · by_cases h2 : source_name_hit ld
    · have hg : source_name_truthy ld = true := by
        by_contra hc
        have := source_name_hit_imp_truthy ld (by simpa using hc)
        simp [this] at h2
      simp [h1, h2, hg]
    · have hgate : (source_name_truthy ld && source_name_hit ld) = false := by
        simp [h2]
      cases hs : get_custom_field ld "Source" with
      | str s =>
          by_cases hempty : s = ""
          · subst hempty
            have hsc : source_custom_field_hit ld = false := by
              unfold source_custom_field_hit
              rw [hs]; decide
            simp [h1, h2, hgate, hs, hsc, pyTruthy, htail]
          · have htruthy : pyTruthy (CFVal.str s) = true := by
              simp [pyTruthy, hempty]
            by_cases h3 : (strContains (pyLower s) "form" ||
                strContains (pyLower s) "website") = true
            · have hsc : source_custom_field_hit ld = true := by
                unfold source_custom_field_hit
                rw [hs]; exact h3
              simp [h1, h2, hgate, hs, htruthy, h3, hsc]
            · have hcontains : (strContains (pyLower s) "form" ||
                  strContains (pyLower s) "website") = false := by
                simpa using h3
              have hsc : source_custom_field_hit ld = false := by
                unfold source_custom_field_hit
                rw [hs]; exact hcontains
              simp [h1, h2, hgate, hs, htruthy, hsc, hcontains, htail]
      | null =>
          have hsc : source_custom_field_hit ld = false := by
            unfold source_custom_field_hit; rw [hs]
          simp [h1, h2, hgate, hs, hsc, pyTruthy, htail]
      | num n =>
          rw [hs] at h
          have hfalse : pyTruthy (CFVal.num n) = false := by simpa using h
          have hsc : source_custom_field_hit ld = false := by
            unfold source_custom_field_hit; rw [hs]
          simp [h1, h2, hgate, hs, hsc, hfalse, htail]
      | vlist l =>
          rw [hs] at h
          have hfalse : pyTruthy (CFVal.vlist l) = false := by simpa using h
          have hsc : source_custom_field_hit ld = false := by
            unfold source_custom_field_hit; rw [hs]
          simp [h1, h2, hgate, hs, hsc, hfalse, htail]

/-- Witness for the amended C2 theorem at `leadRevenueOnly`. -/
theorem get_lead_source_classification_witness :
    get_lead_source leadRevenueOnly =
      some (if lead_source_spec_cond leadRevenueOnly then "Form Submission"
            else "Manually Added") :=
  get_lead_source_classification leadRevenueOnly (by decide)

/-! ## Claim C3: template substitution -/

/-- **C3 counterexample.** With the built-in fallback templates (loaded
when every candidate file fails), a `"general"` rejection email for a lead
still contains the placeholder `"{first_name}"`: the code only substitutes
`{lead_name}`, `{company_name}` and `{sender_name}`, so the claim that no
`{name}`-form placeholder remains in the returned text is false. -/
theorem generate_rejection_email_placeholder_remains_cex :
    generate_rejection_email (load_email_templates [none, none, none])
        (some "janed@activeimpact.com") leadRevenueOnly "general" ≠ none ∧
      strContains ((generate_rejection_email (load_email_templates [none, none, none])
          (some "janed@activeimpact.com") leadRevenueOnly "general").getD "")
        "{first_name}" = true := by
  exact ⟨by decide, by decide⟩

/-- **C3 (amended).** Whenever the template lookup (the requested type,
falling back to `"standard"`, then `""`) yields a non-empty template,
`generate_rejection_email` returns that template with the three supported
placeholders `{lead_name}`, `{company_name}` and `{sender_name}` replaced
(in that order) by the lead's name, the lead's company name and the derived
sender name, followed by the fixed signature block `"\n\nWarmly,\n"` and
the sender name; placeholders other than these three are left in place. -/
theorem generate_rejection_email_substitution (templates : List (String × String))
    (addr : Option String) (ld : LeadDetails) (template_type : String)
    (h : (lookupA templates template_type).getD
        ((lookupA templates "standard").getD "") ≠ "") :
    generate_rejection_email templates addr ld template_type =
      some (pyReplace (pyReplace (pyReplace
            ((lookupA templates template_type).getD
              ((lookupA templates "standard").getD ""))
            "{lead_name}" (ld.name.getD ""))
            "{company_name}" (ld.company_name.getD ""))
            "{sender_name}" (get_sender_name addr)
          ++ "\n\nWarmly,\n" ++ get_sender_name addr) := by
  unfold generate_rejection_email
  simp only [if_neg h]

/-- Witness for the amended C3 theorem: the fallback table, a concrete
sender address and lead, template type `"general"`. -/
theorem generate_rejection_email_substitution_witness :
    generate_rejection_email defaultTemplates (some "janed@activeimpact.com")
        leadRevenueOnly "general" =
      some (pyReplace (pyReplace (pyReplace
            ((lookupA defaultTemplates "general").getD
              ((lookupA defaultTemplates "standard").getD ""))
            "{lead_name}" (leadRevenueOnly.name.getD ""))
            "{company_name}" (leadRevenueOnly.company_name.getD ""))
            "{sender_name}" (get_sender_name (some "janed@activeimpact.com"))
          ++ "\n\nWarmly,\n" ++ get_sender_name (some "janed@activeimpact.com")) :=
  generate_rejection_email_substitution defaultTemplates
    (some "janed@activeimpact.com") leadRevenueOnly "general" (by decide)

/-! ## Claims C4 and C5: timestamps -/

/-- Days from 1970-01-01 to the given proleptic-Gregorian civil date
(Hinnant's `days_from_civil` algorithm), used to state the spec's example
date `2023-11-14T22:13:20Z` independently of the numeric literal. -/
def days_from_civil (y m d : Int) : Int :=
  let y2 := if m ≤ 2 then y - 1 else y
  let era := Int.fdiv y2 400
  let yoe := y2 - era * 400
  let mp := Int.emod (m + 9) 12
  let doy := Int.fdiv (153 * mp + 2) 5 + d - 1
  let doe := yoe * 365 + Int.fdiv yoe 4 - Int.fdiv yoe 100 + doy
  era * 146097 + doe - 719468

/-- **C4 counterexample.** The general clause fails at two numeric
creation timestamps: at `0`, which is falsy, and at the seconds-regime
value `5e11 ≤ 1e12`, on which `datetime.fromtimestamp` raises (the
year-9999 bound is ≈ 2.534e11) and the `except` branch returns
`"Unknown"`.  In both cases `days_in_copper` returns `none` rather than
the whole-day difference from now, which is well defined — at
`now = 1700000000` and `t = 0` it would be `19675`. -/
theorem days_in_copper_zero_cex :
    days_in_copper utcRange 1700000000 0 = none ∧
      days_in_copper utcRange 1700000000 500000000000 = none ∧
      (500000000000 : ℚ) ≤ 1000000000000 ∧
      ⌊((1700000000 : ℚ) - 0) / 86400⌋ = 19675 := by
  refine ⟨?_, ?_, by norm_num, ?_⟩
  · simp [days_in_copper]
  · unfold days_in_copper
    rw [if_neg (by norm_num : ¬ (500000000000 : ℚ) = 0)]
    simp only [if_neg (by norm_num : ¬ (500000000000 : ℚ) > 1000000000000)]
    rw [if_neg (by norm_num [utcRange])]
  · rw [Int.floor_eq_iff]
    norm_num

/-- **C4 (amended).** For the lead with `date_created = 1700000000000`
(milliseconds), the age computed by `days_in_copper` equals the floor of
the elapsed days since 2023-11-14T22:13:20Z; and for every nonzero numeric
creation timestamp whose adjusted value (divided by 1000 when above 1e12)
lies in the platform's convertible datetime range, the result is the
whole-day difference between now and the creation instant.  (A zero or
out-of-range timestamp yields `"Unknown"` instead.) -/
theorem days_in_copper_whole_days (pr : FromTimestampRange) (now t : ℚ)
    (h : t ≠ 0)
    (hin : pr.lo ≤ (if t > 1000000000000 then t / 1000 else t) ∧
      (if t > 1000000000000 then t / 1000 else t) ≤ pr.hi) :
    days_in_copper utcRange now 1700000000000 =
      some ⌊(now - (((days_from_civil 2023 11 14 : Int) : ℚ) * 86400 +
        (22 * 3600 + 13 * 60 + 20))) / 86400⌋ ∧
    days_in_copper pr now t =
      some ⌊(now - (if t > 1000000000000 then t / 1000 else t)) / 86400⌋ := by
  constructor
  · unfold days_in_copper
    rw [if_neg (by norm_num : ¬ (1700000000000 : ℚ) = 0)]
    have hd : days_from_civil 2023 11 14 = 19675 := by decide
    rw [hd]
    norm_num [utcRange]
  · unfold days_in_copper
    simp only [if_neg h, if_pos hin]

/-- Witness for the amended C4 theorem at `now = 1700086400`,
`t = 1700000000000` on the UTC platform. -/
theorem days_in_copper_whole_days_witness :
    days_in_copper utcRange 1700086400 1700000000000 =
      some ⌊((1700086400 : ℚ) - (((days_from_civil 2023 11 14 : Int) : ℚ) * 86400 +
        (22 * 3600 + 13 * 60 + 20))) / 86400⌋ :=
  (days_in_copper_whole_days utcRange 1700086400 1700000000000 (by norm_num)
    (by rw [if_pos (by norm_num : (1700000000000 : ℚ) > 1000000000000)]
        constructor <;> norm_num [utcRange])).1

/-- **C5.** Both `format_date` and `days_in_copper` divide the timestamp
by 1000 before conversion exactly when it exceeds `1e12` and convert it
unchanged as a seconds epoch otherwise: when the adjusted instant is
convertible they render it resp. return its whole-day distance from now,
and when `fromtimestamp` raises on that same adjusted value the `except`
branches return the fixed error results; a falsy timestamp yields the
fixed unknown result instead of a formatted value. -/
theorem timestamp_threshold_behavior (pr : FromTimestampRange) (t now : ℚ) :
    (t > 1000000000000 →
      (pr.lo ≤ t / 1000 ∧ t / 1000 ≤ pr.hi →
        format_date pr t = .rendered (t / 1000) ∧
          days_in_copper pr now t = some ⌊(now - t / 1000) / 86400⌋) ∧
      (¬ (pr.lo ≤ t / 1000 ∧ t / 1000 ≤ pr.hi) →
        format_date pr t = .formatError ∧ days_in_copper pr now t = none)) ∧
    (¬ t > 1000000000000 → t ≠ 0 →
      (pr.lo ≤ t ∧ t ≤ pr.hi →
        format_date pr t = .rendered t ∧
          days_in_copper pr now t = some ⌊(now - t) / 86400⌋) ∧
      (¬ (pr.lo ≤ t ∧ t ≤ pr.hi) →
        format_date pr t = .formatError ∧ days_in_copper pr now t = none)) ∧
    format_date pr 0 = .unknownDate ∧ days_in_copper pr now 0 = none := by
  refine ⟨fun hgt => ⟨fun hin => ?_, fun hout => ?_⟩,
    fun hle hne => ⟨fun hin => ?_, fun hout => ?_⟩, ?_, ?_⟩
  · have hne : t ≠ 0 := by positivity
    constructor <;>
      simp only [format_date, days_in_copper, if_neg hne, if_pos hgt, if_pos hin]
  · have hne : t ≠ 0 := by positivity
    constructor <;>
      simp only [format_date, days_in_copper, if_neg hne, if_pos hgt, if_neg hout]
  · constructor <;>
      simp only [format_date, days_in_copper, if_neg hne, if_neg hle, if_pos hin]
  · constructor <;>
      simp only [format_date, days_in_copper, if_neg hne, if_neg hle, if_neg hout]
  · simp [format_date]
  · simp [days_in_copper]

/-- Witness for C5 in the millisecond regime on the UTC platform, at
`t = 2000000000000`, `now = 0`. -/
theorem timestamp_threshold_behavior_witness :
    format_date utcRange 2000000000000 = .rendered ((2000000000000 : ℚ) / 1000) ∧
      days_in_copper utcRange 0 2000000000000 =
        some ⌊((0 : ℚ) - (2000000000000 : ℚ) / 1000) / 86400⌋ :=
  ((timestamp_threshold_behavior utcRange 2000000000000 0).1 (by norm_num)).1
    (by constructor <;> norm_num [utcRange])

/-! ## Claim C6: the SMTP send flow -/

/-- The exception class, forgetting the carried message. -/
def excTag : PyExc → Nat
  | .smtpAuth _ => 0
  | .smtpSenderRefused _ => 1
  | .smtpRecipientsRefused _ => 2
  | .smtpOther _ => 3
  | .generic _ => 4

lemma string_ne_of_take2_ne (s t : String) (h : s.data.take 2 ≠ t.data.take 2) :
    s ≠ t :=
  fun he => h (by rw [he])

lemma take2_append (p m : String) (h : 2 ≤ p.data.length) :
    (p ++ m).data.take 2 = p.data.take 2 := by
  rw [String.data_append, List.take_append_of_le_length h]

lemma take2_append2 (p m r : String) (h : 2 ≤ p.data.length) :
    (p ++ m ++ r).data.take 2 = p.data.take 2 := by
  rw [take2_append _ _ ?_, take2_append _ _ h]
  rw [String.data_append, List.length_append]
  omega

/-- The two leading characters of each handler's message, fixed by the
exception class alone. -/
def classTake2 : PyExc → List Char
  | .smtpAuth _ => ['A', 'u']
  | .smtpSenderRefused _ => ['S', 'e']
  | .smtpRecipientsRefused _ => ['R', 'e']
  | .smtpOther _ => ['S', 'M']
  | .generic _ => ['F', 'a']

/-- The two leading characters of each handler's message depend only on
the exception class. -/
lemma excMessage_take2 (e : PyExc) :
    (excMessage e).data.take 2 = classTake2 e := by
  cases e with
  | smtpAuth m =>
      simp only [excMessage, classTake2]
      split
      · decide
      · rw [take2_append2 _ _ _ (by decide)]; decide
  | smtpSenderRefused m =>
      simp only [excMessage, classTake2]
      rw [take2_append2 _ _ _ (by decide)]; decide
  | smtpRecipientsRefused m =>
      simp only [excMessage, classTake2]
      rw [take2_append2 _ _ _ (by decide)]; decide
  | smtpOther m =>
      simp only [excMessage, classTake2]
      rw [take2_append _ _ (by decide)]; decide
  | generic m =>
      simp only [excMessage, classTake2]
      rw [take2_append _ _ (by decide)]; decide

/-- **C6.** `send_email` always returns a `(success, message)` pair under
any SMTP outcome: missing credentials and an empty recipient produce the
fixed error pairs without any SMTP call; a raised exception produces
`(False, message)` with a message determined by — and distinct across —
the caught exception classes; the result is `(True, ...)` exactly when the
credentials and recipient are present and all five SMTP steps succeed; and
`sendmail` is invoked at most once, so no retry ever happens. -/
theorem send_email_total_single_attempt (cfg : EmailConfig) (w : SMTPWorld)
    (recipient : String) :
    ((send_email cfg w recipient).2.count .sendmail ≤ 1) ∧
    ((send_email cfg w recipient).1.1 = true ↔
      cfg.email_address ≠ "" ∧ cfg.email_password ≠ "" ∧ recipient ≠ "" ∧
        w.connectExc = none ∧ w.starttlsExc = none ∧ w.loginExc = none ∧
        w.sendExc = none ∧ w.quitExc = none) ∧
    ((send_email cfg w recipient).1.1 = true →
      (send_email cfg w recipient).1.2 = "Email sent successfully!") ∧
    (cfg.email_address = "" ∨ cfg.email_password = "" →
      (send_email cfg w recipient).1 =
        (false, "Email credentials not configured. Please check your Streamlit secrets.") ∧
        (send_email cfg w recipient).2 = []) ∧
    (cfg.email_address ≠ "" → cfg.email_password ≠ "" → recipient = "" →
      (send_email cfg w recipient).1 = (false, "No recipient email provided") ∧
        (send_email cfg w recipient).2 = []) ∧
    (∀ e, cfg.email_address ≠ "" → cfg.email_password ≠ "" → recipient ≠ "" →
      (smtp_send_steps w).2 = some e →
      (send_email cfg w recipient).1 = (false, excMessage e)) ∧
    (∀ e₁ e₂ : PyExc, excTag e₁ ≠ excTag e₂ → excMessage e₁ ≠ excMessage e₂) := by
  have hdistinct : ∀ e₁ e₂ : PyExc, excTag e₁ ≠ excTag e₂ →
      excMessage e₁ ≠ excMessage e₂ := by
    intro e₁ e₂ htag
    apply string_ne_of_take2_ne
    rw [excMessage_take2, excMessage_take2]
    cases e₁ <;> cases e₂ <;> simp_all [excTag, classTake2]
  by_cases hcred : cfg.email_address = "" ∨ cfg.email_password = ""
  · rcases hcred with h | h <;>
      refine ⟨?_, ?_, ?_, fun _ => ?_, ?_, ?_, hdistinct⟩ <;>
      simp_all [send_email]
  · push_neg at hcred
    by_cases hrec : recipient = ""
    · refine ⟨?_, ?_, ?_, ?_, ?_, ?_, hdistinct⟩ <;>
        simp_all [send_email]
    · have hse : send_email cfg w recipient =
          match (smtp_send_steps w).2 with
          | none => ((true, "Email sent successfully!"), (smtp_send_steps w).1)
          | some e => ((false, excMessage e), (smtp_send_steps w).1) := by
        unfold send_email
        rw [if_neg (by push_neg; exact hcred), if_neg hrec]
      have hcount : (smtp_send_steps w).1.count SMTPAction.sendmail ≤ 1 := by
        unfold smtp_send_steps
        cases w.connectExc <;> cases w.starttlsExc <;> cases w.loginExc <;>
          cases w.sendExc <;> cases w.quitExc <;> simp [List.count_cons]
      have hsucc : (smtp_send_steps w).2 = none ↔
          w.connectExc = none ∧ w.starttlsExc = none ∧ w.loginExc = none ∧
            w.sendExc = none ∧ w.quitExc = none := by
        unfold smtp_send_steps
        cases w.connectExc <;> cases w.starttlsExc <;> cases w.loginExc <;>
          cases w.sendExc <;> cases w.quitExc <;> simp
      refine ⟨?_, ?_, ?_, ?_, ?_, ?_, hdistinct⟩
      · rw [hse]
        cases hexc : (smtp_send_steps w).2 <;> simpa using hcount
      · rw [hse]
        cases hexc : (smtp_send_steps w).2 with
        | none => simp [hcred.1, hcred.2, hrec, ← hsucc, hexc]
        | some e => simp [hcred.1, hcred.2, hrec, ← hsucc, hexc]
      · rw [hse]
        cases hexc : (smtp_send_steps w).2 <;> simp
      · intro hc
        exact absurd hc (by push_neg; exact hcred)
      · intro _ _ hr
        exact absurd hr hrec
      · intro e _ _ _ hexc
        rw [hse, hexc]

/-- Witness for C6: concrete credentials, a fully successful SMTP world and
a concrete recipient give the successful pair. -/
theorem send_email_total_single_attempt_witness :
    (send_email ⟨"sender@activeimpact.com", "secret"⟩
        ⟨none, none, none, none, none⟩ "founder@startup.com").1.1 = true :=
  ((send_email_total_single_attempt ⟨"sender@activeimpact.com", "secret"⟩
      ⟨none, none, none, none, none⟩ "founder@startup.com").2.1).mpr
    (by refine ⟨?_, ?_, ?_, rfl, rfl, rfl, rfl, rfl⟩ <;> decide)

/-! ## Claim C7: the built-in template fallback -/

/-- **C7.** When no candidate path yields a template table, the table
becomes the non-empty built-in fallback, and `generate_rejection_email`
still returns a non-`None` body for the `"general"` template type, for any
lead and sender address. -/
theorem default_templates_fallback
    (fileResults : List (Option (List (String × String))))
    (h : ∀ r ∈ fileResults, r = none) (addr : Option String) (ld : LeadDetails) :
    load_email_templates fileResults = defaultTemplates ∧
      defaultTemplates ≠ [] ∧
      generate_rejection_email (load_email_templates fileResults) addr ld
        "general" ≠ none := by
  have hnil : fileResults.filterMap id = [] := by
    induction fileResults with
    | nil => rfl
    | cons r rest ih =>
        have hr : r = none := h r (by simp)
        subst hr
        simpa using ih fun r hr => h r (by simp [hr])
  have hload : load_email_templates fileResults = defaultTemplates := by
    unfold load_email_templates
    rw [hnil]
    rfl
  refine ⟨hload, by decide, ?_⟩
  rw [hload]
  unfold generate_rejection_email
  rw [if_neg (by decide)]
  simp

/-- Witness for C7: three failed candidate paths, a concrete sender address
and the empty lead. -/
theorem default_templates_fallback_witness :
    load_email_templates [none, none, none] = defaultTemplates ∧
      defaultTemplates ≠ [] ∧
      generate_rejection_email (load_email_templates [none, none, none])
        (some "janed@activeimpact.com") emptyLead "general" ≠ none :=
  default_templates_fallback [none, none, none] (by decide)
    (some "janed@activeimpact.com") emptyLead

/-! ## Claim C8: the refresh handler -/

/-- A pre-refresh state in which all three caches are populated. -/
def stateBeforeRefresh : AppState :=
  { lead_details_cache := [(101, emptyLead)]
    field_definitions_cache := some [(some 328938, some "Number of full time employees")]
    email_cache := some [("101_general", "body")] }

/-- **C8 counterexample.** After the refresh handler runs, the
custom-field-definitions cache still holds its pre-refresh content, and the
next `fetch_custom_field_definitions` is served from it without issuing a
request — refuting the claim that every cached CRM structure (including the
field-definitions cache) is invalidated. -/
theorem refresh_keeps_field_definitions_cex :
    (refresh_leads_handler stateBeforeRefresh).field_definitions_cache =
      some [(some 328938, some "Number of full time employees")] ∧
      (fetch_custom_field_definitions ⟨200, []⟩
        (refresh_leads_handler stateBeforeRefresh).field_definitions_cache).2.2 =
        false :=
  ⟨rfl, rfl⟩

/-- **C8 (amended).** The Refresh Leads handler empties the lead-details
cache and deletes the session email cache, but leaves the
field-definitions cache exactly as it was. -/
theorem refresh_clears_lead_and_email_caches (s : AppState) :
    (refresh_leads_handler s).lead_details_cache = [] ∧
      (refresh_leads_handler s).email_cache = none ∧
      (refresh_leads_handler s).field_definitions_cache =
        s.field_definitions_cache :=
  ⟨rfl, rfl, rfl⟩

/-! ## Claim C9: the memoising fetch functions -/

lemma lookupA_insertAssoc {α β : Type} [DecidableEq α] (m : List (α × β))
    (k : α) (v : β) : lookupA (insertAssoc m k v) k = some v := by
  induction m with
  | nil => simp [insertAssoc, lookupA]
  | cons kv rest ih =>
      obtain ⟨k', v'⟩ := kv
      by_cases h : k' = k
      · simp [insertAssoc, h, lookupA]
      · simp [insertAssoc, h, lookupA, ih]

/-- **C9.** Both fetch functions store a response exactly when it has
status 200: a cache hit is returned unchanged with no request issued; a
miss issues one request, stores and returns the 200 body (after which every
later call returns the stored value without a request), and returns the
empty placeholder uncached on any other status. -/
theorem fetch_caching_status_200 (resp : LeadResponse)
    (cache : List (Int × LeadDetails)) (lead_id : Int) (dresp : DefsResponse)
    (dcache : Option (List (Option Int × Option String))) :
    (∀ ld, lookupA cache lead_id = some ld →
      fetch_lead_details resp cache lead_id = (ld, cache, false)) ∧
    (lookupA cache lead_id = none → resp.status = 200 →
      fetch_lead_details resp cache lead_id =
        (resp.body, insertAssoc cache lead_id resp.body, true) ∧
      ∀ resp2, fetch_lead_details resp2 (insertAssoc cache lead_id resp.body)
        lead_id = (resp.body, insertAssoc cache lead_id resp.body, false)) ∧
    (lookupA cache lead_id = none → resp.status ≠ 200 →
      fetch_lead_details resp cache lead_id = (emptyLead, cache, true)) ∧
    (∀ m, dcache = some m →
      fetch_custom_field_definitions dresp dcache = (m, some m, false)) ∧
    (dcache = none → dresp.status = 200 →
      fetch_custom_field_definitions dresp dcache =
        (build_definition_map dresp.body,
          some (build_definition_map dresp.body), true) ∧
      ∀ dresp2, fetch_custom_field_definitions dresp2
        (some (build_definition_map dresp.body)) =
        (build_definition_map dresp.body,
          some (build_definition_map dresp.body), false)) ∧
    (dcache = none → dresp.status ≠ 200 →
      fetch_custom_field_definitions dresp dcache = ([], none, true)) := by
  refine ⟨?_, ?_, ?_, ?_, ?_, ?_⟩
  · intro ld hld
    unfold fetch_lead_details
    rw [hld]
  · intro hmiss h200
    constructor
    · unfold fetch_lead_details
      rw [hmiss, if_pos h200]
    · intro resp2
      unfold fetch_lead_details
      rw [lookupA_insertAssoc]
  · intro hmiss hfail
    unfold fetch_lead_details
    rw [hmiss, if_neg hfail]
  · intro m hm
    unfold fetch_custom_field_definitions
    rw [hm]
  · intro hmiss h200
    constructor
    · unfold fetch_custom_field_definitions
      rw [hmiss, if_pos h200]
    · intro dresp2
      unfold fetch_custom_field_definitions
      rfl
  · intro hmiss hfail
    unfold fetch_custom_field_definitions
    rw [hmiss, if_neg hfail]

/-- Witness for C9: a fresh cache, a 200 response for lead 7, then a second
call answered from the cache with no request. -/
theorem fetch_caching_status_200_witness :
    fetch_lead_details ⟨200, emptyLead⟩ [] 7 =
      (emptyLead, insertAssoc [] 7 emptyLead, true) ∧
      fetch_lead_details ⟨500, emptyLead⟩ (insertAssoc [] 7 emptyLead) 7 =
        (emptyLead, insertAssoc [] 7 emptyLead, false) :=
  ⟨((fetch_caching_status_200 ⟨200, emptyLead⟩ [] 7 ⟨200, []⟩ none).2.1
      (by decide) (by decide)).1,
    ((fetch_caching_status_200 ⟨200, emptyLead⟩ [] 7 ⟨200, []⟩ none).2.1
      (by decide) (by decide)).2 ⟨500, emptyLead⟩⟩

/-! ## Claim C10: sender-name derivation -/

lemma splitOnChar_ne_nil (sep : Char) (l : List Char) : splitOnChar sep l ≠ [] := by
  cases l with
  | nil => simp [splitOnChar]
  | cons c rest =>
      unfold splitOnChar
      by_cases h : c = sep
      · simp [h]
      · simp only [if_neg h]
        cases hr : splitOnChar sep rest <;> simp

lemma splitOnChar_head (sep : Char) (l : List Char) :
    (splitOnChar sep l).headD [] = l.takeWhile (· != sep) := by
  induction l with
  | nil => rfl
  | cons c rest ih =>
      unfold splitOnChar
      by_cases h : c = sep
      · subst h
        simp [List.takeWhile_cons]
      · rw [if_neg h]
        cases hr : splitOnChar sep rest with
        | nil => exact absurd hr (splitOnChar_ne_nil sep rest)
        | cons hd tl =>
            rw [hr] at ih
            simp only [List.headD_cons] at ih
            simp [List.takeWhile_cons, h, ih]

/-- **C10.** For every email string containing `'@'`, `get_sender_name`
returns the local part (the substring before the first `'@'`) with its
final character removed when it is longer than one character, else the
local part itself, capitalized; and a non-string input (on which the code
raises) yields the fixed fallback `"Active Impact"`. -/
theorem get_sender_name_local_part (s : String) (_h : '@' ∈ s.data) :
    get_sender_name (some s) =
      pyCapitalize (String.mk
        (if (s.data.takeWhile (· != '@')).length > 1
         then (s.data.takeWhile (· != '@')).dropLast
         else s.data.takeWhile (· != '@'))) ∧
      get_sender_name none = "Active Impact" := by
  refine ⟨?_, rfl⟩
  simp only [get_sender_name]
  rw [splitOnChar_head]

/-- Witness for C10 at the address `"janed@activeimpact.com"`. -/
theorem get_sender_name_local_part_witness :
    get_sender_name (some "janed@activeimpact.com") =
      pyCapitalize (String.mk
        (if (("janed@activeimpact.com" : String).data.takeWhile (· != '@')).length > 1
         then (("janed@activeimpact.com" : String).data.takeWhile (· != '@')).dropLast
         else ("janed@activeimpact.com" : String).data.takeWhile (· != '@'))) ∧
      get_sender_name none = "Active Impact" :=
  get_sender_name_local_part "janed@activeimpact.com" (by decide)

end Rejection
